import Mathlib

/-!
Shallow embedding of `deployment_utils.py` from the Typesense Kubernetes
Operator.  Python values flowing through the validator and the renderers are
modelled by the inductive `Val`; dictionaries are association lists; Python
truthiness is made explicit; code that can raise returns `Except String`.
-/

/-- A Python value as it appears in the operator spec dictionaries:
`None`, strings, integers, lists and dicts. -/
inductive Val where
  | none : Val
  | str : String → Val
  | int : Int → Val
  | list : List Val → Val
  | dict : List (String × Val) → Val
deriving Repr

/-- Python truthiness: `None`, `""`, `0`, `[]` and `{}` are falsy. -/
def Val.truthy : Val → Bool
  | .none => false
  | .str s => s ≠ ""
  | .int n => n ≠ 0
  | .list l => !l.isEmpty
  | .dict d => !d.isEmpty

/-- Dict lookup (first binding wins), `d.get(k)` before defaulting. -/
def getKey (d : List (String × Val)) (k : String) : Option Val :=
  (d.find? (fun p => p.fst = k)).map (fun p => p.snd)

/-- Python `d.get(k, default)`. -/
def pyGetD (d : List (String × Val)) (k : String) (dflt : Val) : Val :=
  (getKey d k).getD dflt

/-- Python `d.get(k)` (default `None`). -/
def sget (d : List (String × Val)) (k : String) : Val :=
  pyGetD d k Val.none

/-- Python attribute access `.get` on a value that must be a dict;
anything else raises (`AttributeError`). -/
def asDict : Val → Except String (List (String × Val))
  | .dict d => Except.ok d
  | _ => Except.error "AttributeError"

/-- The `resources` check of `validate_spec` (lines 18-24), exactly as the
source performs it: it consults the top-level keys `requests`, `memory` and
`cpu` of the `spec` mapping itself (not of the `resources` block), and raises
when `memory` is falsy or `cpu` is truthy. -/
def resourcesCheck (s : List (String × Val)) : Except String Unit :=
  if (sget s "resources").truthy then
    match (if (sget s "requests").truthy then
            (if !(sget s "memory").truthy || (sget s "cpu").truthy then
              Except.error "Memory or cpu is missing under requests"
            else Except.ok ())
          else Except.ok ()) with
    | Except.error e => Except.error e
    | Except.ok _ =>
      if (sget s "limits").truthy then
        (if !(sget s "memory").truthy || (sget s "cpu").truthy then
          Except.error "Memory or cpu is missing under limits"
        else Except.ok ())
      else Except.ok ()
  else Except.ok ()

/-- The `if spec:` branch of `validate_spec` (lines 17-37): resource check,
defaulted field propagation, and the `storageClass` check. -/
def specPart (spec : Val) : Except String (List (String × Val)) :=
  if spec.truthy then
    match spec with
    | Val.dict s =>
      match resourcesCheck s with
      | Except.error e => Except.error e
      | Except.ok _ =>
        let base : List (String × Val) :=
          [("namespace", pyGetD s "namespace" (Val.str "typesense")),
           ("image", pyGetD s "image" (Val.str "typesense/typesense")),
           ("resources", sget s "resources"),
           ("host", pyGetD s "host" (Val.str "typesense.dwbn.local")),
           ("nodeSelector", sget s "nodeSelector"),
           ("clusterdomain", pyGetD s "clusterdomain" (Val.str "cluster.local")),
           ("replicas", pyGetD s "replicas" (Val.int 3))]
        if (sget s "storageClass").truthy then
          match sget s "storageClass" with
          | Val.dict sc =>
            if !(sget sc "name").truthy || !(sget sc "size").truthy then
              Except.error "Missing storageClass name or size"
            else
              Except.ok (base ++
                [("storageClassName", sget sc "name"),
                 ("storage", sget sc "size")])
          | _ => Except.error "AttributeError"
        else
          Except.ok base
    | _ => Except.error "AttributeError"
  else
    Except.ok []

/-- The `if config:` branch of `validate_spec` (lines 39-40). -/
def configPart (config : Val) (rd : List (String × Val)) :
    Except String (List (String × Val)) :=
  if config.truthy then
    match config with
    | Val.dict c =>
      Except.ok (rd ++ [("password", pyGetD c "password" (Val.str "297beb01dd21c"))])
    | _ => Except.error "AttributeError"
  else
    Except.ok rd

/-- Embedding of `validate_spec` (lines 8-41): indexes `op_spec` at `new`,
pulls the `spec` and `config` sections with default `None`, and builds the
resolved spec dictionary; raising is modelled by `Except.error`. -/
def validate_spec (op_spec : List (String × Val)) :
    Except String (List (String × Val)) :=
  match getKey op_spec "new" with
  | Option.none => Except.error "KeyError: new"
  | Option.some nw =>
    match nw with
    | Val.dict nwd =>
      match specPart (sget nwd "spec") with
      | Except.error e => Except.error e
      | Except.ok rd => configPart (sget nwd "config") rd
    | _ => Except.error "AttributeError"

/-! ## External client outcomes and error wrapping

Each deploy function calls the Kubernetes client inside a
`try`/`except ApiException`/`except Exception` block.  The outcome of the
client call is injected as a parameter; `apiErr body` is an `ApiException`
carrying `e.body`, `exc msg` any other exception carrying `str(e)`. -/

inductive ClientOutcome where
  | ok : ClientOutcome
  | apiErr : String → ClientOutcome
  | exc : String → ClientOutcome

/-- Whether a deploy call applies its resource by `create` or by `patch`. -/
inductive ApplyMethod where
  | create : ApplyMethod
  | patch : ApplyMethod
deriving Repr, DecidableEq

/-! ## Namespace (`create_modify_namespace`, lines 44-69) -/

/-- The namespace descriptor loaded from `templates/namespace.yaml`:
its metadata name plus the remaining template content, carried opaquely. -/
structure NamespaceConf where
  metadata_name : String
  metadata_labels : List (String × Val)
  rest : Val
deriving Repr

/-- Lines 58-59: overlay the metadata name of the configuration with the
namespace argument only when it differs from `default`. -/
def create_modify_namespace_render (base : NamespaceConf) (ns : String) :
    NamespaceConf :=
  if ns ≠ "default" then { base with metadata_name := ns } else base

/-- Embedding of `create_modify_namespace` (lines 44-69): render, then
`create_namespace`.  An `ApiException` is wrapped on line 66 as
`"Kubernets Api Exception - Namespace: {e.body}"` and re-raised; the outer
handler (line 69) wraps that again as `"Exception namespace: {e}"`.  Any
other exception is wrapped once as `"Exception namespace: {e}"`. -/
def create_modify_namespace_run (base : NamespaceConf) (ns : String)
    (client : ClientOutcome) : Except String NamespaceConf :=
  match client with
  | ClientOutcome.ok => Except.ok (create_modify_namespace_render base ns)
  | ClientOutcome.apiErr b =>
      Except.error ("Exception namespace: " ++
        ("Kubernets Api Exception - Namespace: " ++ b))
  | ClientOutcome.exc m => Except.error ("Exception namespace: " ++ m)

/-! ## Discovery config map (`deploy_configmap`, lines 140-173) -/

/-- The config-map descriptor loaded from `templates/configmap.yaml`:
its namespace, its `data.nodes` entry, and the remaining content. -/
structure ConfigMapConf where
  metadata_namespace : Val
  data_nodes : Val
  rest : Val
deriving Repr

/-- One peer address, line 159: the fixed template
`typesense-<count>.ts.<namespace>.svc.<clusterdomain>:8107:8108`. -/
def nodeAddress (count : Nat) (ns cd : String) : String :=
  "typesense-" ++ toString count ++ ".ts." ++ ns ++ ".svc." ++ cd ++ ":8107:8108"

/-- Lines 157-159: the `nodes` list built by appending one entry per
`count in range(0, int(replicas))`. -/
def buildNodes (replicas : Nat) (ns cd : String) : List String :=
  (List.range replicas).foldl (fun nodes count => nodes ++ [nodeAddress count ns cd]) []

/-- The rendering part of `deploy_configmap` (lines 155-160): overwrite the
namespace; when `replicas` is truthy, regenerate the `nodes` entry of the
data as the comma-joined peer list (a `range` on a negative bound is
empty). -/
def deploy_configmap_render (base : ConfigMapConf) (replicas : Option Int)
    (ns cd : String) : ConfigMapConf :=
  let c := { base with metadata_namespace := Val.str ns }
  match replicas with
  | Option.none => c
  | Option.some r =>
    if r ≠ 0 then
      { c with data_nodes := Val.str (String.intercalate "," (buildNodes r.toNat ns cd)) }
    else c

/-- Embedding of `deploy_configmap` (lines 140-173): render, then create or patch
depending on `update`; `ApiException` wrapped on line 170, any other
exception on line 173. -/
def deploy_configmap_run (base : ConfigMapConf) (replicas : Option Int)
    (ns : String) (update : Bool) (cd : String) (client : ClientOutcome) :
    Except String (ConfigMapConf × ApplyMethod) :=
  match client with
  | ClientOutcome.ok =>
      Except.ok (deploy_configmap_render base replicas ns cd,
        if update then ApplyMethod.patch else ApplyMethod.create)
  | ClientOutcome.apiErr b =>
      Except.error ("Kubernets Api Exception - Configmap: " ++ b ++ " ")
  | ClientOutcome.exc m => Except.error ("Exception configmap: " ++ m)

/-! ## Stateful set (`deploy_typesense_statefulset`, lines 72-137) -/

/-- The statefulset descriptor loaded from `templates/statefulset.yaml`,
restricted to the fields the function touches: pod-template volumes,
`volumeClaimTemplates`, namespace, container image, container resources,
node selector, container command, replica count and pod-template
annotations. -/
structure StatefulSetConf where
  metadata_namespace : Val
  volumeClaimTemplates : Option Val
  volumes : List Val
  image : Val
  resources : Option Val
  nodeSelector : Option Val
  command : List Val
  replicas : Val
  annotations : Option Val
deriving Repr

/-- The ephemeral scratch volume appended on lines 110-111:
`{"name": "data", "emptyDir": {"sizeLimit": "500Mi"}}`. -/
def emptyDirDataVolume : Val :=
  Val.dict [("name", Val.str "data"),
            ("emptyDir", Val.dict [("sizeLimit", Val.str "500Mi")])]

/-- The persistent-volume claim template built on lines 87-106 from the
fields `storageClassName` and `storage` of the resolved spec. -/
def volumeClaimTemplate (scName storage : Val) : Val :=
  Val.dict [("metadata", Val.dict [("name", Val.str "data")]),
            ("spec", Val.dict
              [("accessModes", Val.list [Val.str "ReadWriteOnce"]),
               ("storageClassName", scName),
               ("resources", Val.dict
                 [("requests", Val.dict [("storage", storage)])])])]

/-- Lines 86-111: when the key `storageClassName` of the spec is truthy,
replace `volumeClaimTemplates` (indexing the spec at `storage` raises
`KeyError` when absent); otherwise append the emptyDir scratch volume to the
pod-template volumes. -/
def deploy_ss_storage (base : StatefulSetConf) (spec : List (String × Val)) :
    Except String StatefulSetConf :=
  if (sget spec "storageClassName").truthy then
    match getKey spec "storage" with
    | Option.some st =>
        let vct := Option.some (Val.list [volumeClaimTemplate (sget spec "storageClassName") st])
        Except.ok { base with volumeClaimTemplates := vct }
    | Option.none => Except.error "KeyError: storage"
  else
    Except.ok { base with volumes := base.volumes ++ [emptyDirDataVolume] }

/-- Line 120: assignment of the password into slot 4 of the container
command; Python raises `IndexError` when the command has fewer than five
items. -/
def setCommandIdx (c : StatefulSetConf) (i : Nat) (v : Val) :
    Except String StatefulSetConf :=
  if i < c.command.length then Except.ok { c with command := c.command.set i v }
  else Except.error "IndexError"

/-- Lines 113-114: guarded overlay of the container image. -/
def overlayImage (spec : List (String × Val)) (c : StatefulSetConf) : StatefulSetConf :=
  if (sget spec "image").truthy then { c with image := sget spec "image" } else c

/-- Lines 115-116: guarded overlay of the container resources. -/
def overlayResources (spec : List (String × Val)) (c : StatefulSetConf) : StatefulSetConf :=
  if (sget spec "resources").truthy then { c with resources := Option.some (sget spec "resources") } else c

/-- Lines 117-118: guarded overlay of the node selector. -/
def overlayNodeSelector (spec : List (String × Val)) (c : StatefulSetConf) : StatefulSetConf :=
  if (sget spec "nodeSelector").truthy then { c with nodeSelector := Option.some (sget spec "nodeSelector") } else c

/-- Lines 119-120: guarded injection of the password into command slot 4. -/
def overlayPassword (spec : List (String × Val)) (c : StatefulSetConf) :
    Except String StatefulSetConf :=
  if (sget spec "password").truthy then setCommandIdx c 4 (sget spec "password")
  else Except.ok c

/-- Lines 121-122: guarded overlay of the replica count. -/
def overlayReplicas (spec : List (String × Val)) (c : StatefulSetConf) : StatefulSetConf :=
  if (sget spec "replicas").truthy then { c with replicas := sget spec "replicas" } else c

/-- Lines 112-126: namespace (indexing, line 112), then the
truthiness-guarded overlays of image, resources, nodeSelector, password and
replicas, and finally the restart annotation stamped with the current time
`now` when `update` holds, selecting patch versus create. -/
def deploy_ss_overlay (c0 : StatefulSetConf) (spec : List (String × Val))
    (update : Bool) (now : String) :
    Except String (StatefulSetConf × ApplyMethod) :=
  match getKey spec "namespace" with
  | Option.none => Except.error "KeyError: namespace"
  | Option.some nsv =>
    let c4 := overlayNodeSelector spec (overlayResources spec
      (overlayImage spec { c0 with metadata_namespace := nsv }))
    match overlayPassword spec c4 with
    | Except.error e => Except.error e
    | Except.ok c5 =>
      let c6 := overlayReplicas spec c5
      if update then
        let ann := Option.some (Val.dict [("kubectl.kubernetes.io/restartedAt", Val.str now)])
        Except.ok ({ c6 with annotations := ann }, ApplyMethod.patch)
      else
        Except.ok (c6, ApplyMethod.create)

/-- The rendering part of `deploy_typesense_statefulset` (lines 86-126):
storage handling followed by the field overlays. -/
def deploy_typesense_statefulset_render (base : StatefulSetConf)
    (spec : List (String × Val)) (update : Bool) (now : String) :
    Except String (StatefulSetConf × ApplyMethod) :=
  match deploy_ss_storage base spec with
  | Except.error e => Except.error e
  | Except.ok c0 => deploy_ss_overlay c0 spec update now

/-- Embedding of `deploy_typesense_statefulset` (lines 72-137): any exception raised while
rendering (all rendering happens inside the `try`) is wrapped on line 137 as
`"Exception statefulset: {e}"`; a client `ApiException` is wrapped on
line 134 as `"Kubernets Api Exception - Statefulset: {e.body} "`, any other
client failure on line 137. -/
def deploy_typesense_statefulset_run (base : StatefulSetConf)
    (spec : List (String × Val)) (update : Bool) (now : String)
    (client : ClientOutcome) : Except String (StatefulSetConf × ApplyMethod) :=
  match deploy_typesense_statefulset_render base spec update now with
  | Except.error e => Except.error ("Exception statefulset: " ++ e)
  | Except.ok r =>
    match client with
    | ClientOutcome.ok => Except.ok r
    | ClientOutcome.apiErr b =>
        Except.error ("Kubernets Api Exception - Statefulset: " ++ b ++ " ")
    | ClientOutcome.exc m => Except.error ("Exception statefulset: " ++ m)

/-! ## Service pair (`deploy_service`, lines 176-219) -/

/-- A service descriptor (routable or headless), reduced to its namespace
plus the remaining template content. -/
structure ServiceConf where
  metadata_namespace : Val
  rest : Val
deriving Repr

/-- Embedding of `deploy_service` (lines 176-219): render and create the routable
service, then the headless service; a failure of either client call is
wrapped (`ApiException` on line 216 with `e.body`, anything else on
line 219) and re-raised. -/
def deploy_service_run (svc headless : ServiceConf) (ns : String)
    (c1 c2 : ClientOutcome) : Except String (ServiceConf × ServiceConf) :=
  match c1 with
  | ClientOutcome.apiErr b =>
      Except.error ("Kubernets Api Exception - Service: " ++ b ++ " ")
  | ClientOutcome.exc m => Except.error ("Exception service: " ++ m)
  | ClientOutcome.ok =>
    match c2 with
    | ClientOutcome.apiErr b =>
        Except.error ("Kubernets Api Exception - Service: " ++ b ++ " ")
    | ClientOutcome.exc m => Except.error ("Exception service: " ++ m)
    | ClientOutcome.ok =>
        Except.ok ({ svc with metadata_namespace := Val.str ns },
                   { headless with metadata_namespace := Val.str ns })

/-! ## Ingress (`deploy_ingress`, lines 222-251) -/

/-- The ingress descriptor: namespace, the host of its first rule, and the
remaining template content. -/
structure IngressConf where
  metadata_namespace : Val
  rule_host : Val
  rest : Val
deriving Repr

/-- Embedding of `deploy_ingress` (lines 222-251): set namespace and the
host of the first rule, patch or create by `update`; `ApiException` wrapped on line 248 as
`"Kubernets Api Exception - Ingress: {e.body} "`, any other exception on
line 251 as `"Exception Ingress: {e}"`. -/
def deploy_ingress_run (base : IngressConf) (ns host : String) (update : Bool)
    (client : ClientOutcome) : Except String (IngressConf × ApplyMethod) :=
  match client with
  | ClientOutcome.ok =>
      Except.ok ({ base with metadata_namespace := Val.str ns, rule_host := Val.str host },
        if update then ApplyMethod.patch else ApplyMethod.create)
  | ClientOutcome.apiErr b =>
      Except.error ("Kubernets Api Exception - Ingress: " ++ b ++ " ")
  | ClientOutcome.exc m => Except.error ("Exception Ingress: " ++ m)

/-! ## Concrete fixtures used by witnesses and counterexamples -/

/-- A concrete base config-map descriptor. -/
def exConfigMapBase : ConfigMapConf :=
  { metadata_namespace := Val.str "default",
    data_nodes := Val.str "placeholder",
    rest := Val.none }

/-- A concrete base namespace descriptor. -/
def exNamespaceBase : NamespaceConf :=
  { metadata_name := "default",
    metadata_labels := [("app", Val.str "typesense")],
    rest := Val.none }

/-- A concrete base statefulset descriptor. -/
def exSSBase : StatefulSetConf :=
  { metadata_namespace := Val.str "default",
    volumeClaimTemplates := Option.none,
    volumes := [Val.dict [("name", Val.str "nodeslist")]],
    image := Val.str "typesense/typesense",
    resources := Option.none,
    nodeSelector := Option.none,
    command := [Val.str "/opt/tserver", Val.str "--data-dir", Val.str "/data",
                Val.str "--api-key", Val.str "297beb01dd21c", Val.str "--nodes",
                Val.str "/nodes"],
    replicas := Val.int 3,
    annotations := Option.none }

/-- A concrete resolved spec without a storage class. -/
def exSpecNoStorage : List (String × Val) := [("namespace", Val.str "typesense")]

/-- A concrete resolved spec with a storage class. -/
def exSpecWithStorage : List (String × Val) :=
  [("namespace", Val.str "typesense"),
   ("storageClassName", Val.str "fast"), ("storage", Val.str "10Gi")]

/-- A concrete service descriptor. -/
def exServiceBase : ServiceConf := { metadata_namespace := Val.str "default", rest := Val.none }

/-- A concrete ingress descriptor. -/
def exIngressBase : IngressConf :=
  { metadata_namespace := Val.str "default", rule_host := Val.str "h", rest := Val.none }

/-- Whether `pat` occurs as a contiguous substring of a character list. -/
def hasSub (pat : List Char) : List Char → Bool
  | [] => pat.isEmpty
  | c :: rest => pat.isPrefixOf (c :: rest) || hasSub pat rest

/-- Frame facts for one total overlay step of the statefulset renderer. -/
def PreservesStorageFields (f : StatefulSetConf → StatefulSetConf) : Prop :=
  ∀ c : StatefulSetConf,
    (f c).volumeClaimTemplates = c.volumeClaimTemplates
    ∧ (f c).volumes = c.volumes
    ∧ (f c).annotations = c.annotations

/-! ## Helper lemmas -/

/-- Folding list-append over a list is the same as mapping. -/
theorem foldl_append_eq_map (f : Nat → String) :
    ∀ (l : List Nat) (acc : List String),
      l.foldl (fun ns c => ns ++ [f c]) acc = acc ++ l.map f := by
  intro l
  induction l with
  | nil => simp
  | cons a t ih => intro acc; simp [List.foldl_cons, ih]

/-- The node accumulation loop produces one address per index. -/
theorem buildNodes_eq_map (n : Nat) (ns cd : String) :
    buildNodes n ns cd = (List.range n).map (fun c => nodeAddress c ns cd) := by
  simpa [buildNodes] using
    foldl_append_eq_map (fun c => nodeAddress c ns cd) (List.range n) []

/-- Length of the generated peer list. -/
theorem buildNodes_length (n : Nat) (ns cd : String) :
    (buildNodes n ns cd).length = n := by
  simp [buildNodes_eq_map]

/-- Entry `i` of the generated peer list is the address of replica `i`. -/
theorem buildNodes_get (n : Nat) (ns cd : String) (i : Nat)
    (h : i < (buildNodes n ns cd).length) :
    (buildNodes n ns cd).get ⟨i, h⟩ = nodeAddress i ns cd := by
  have e := buildNodes_eq_map n ns cd
  rw [List.get_eq_getElem]
  simp only [e] at h ⊢
  simp

/-- A dict in which a key was found is non-empty. -/
theorem getKey_isEmpty_false {s : List (String × Val)} {k : String} {v : Val}
    (h : getKey s k = Option.some v) : s.isEmpty = false := by
  cases s with
  | nil => simp [getKey] at h
  | cons a t => rfl

/-- When the config section is falsy, validation reduces to the spec part. -/
theorem validate_spec_falsy_config (nwd : List (String × Val))
    (hcf : (sget nwd "config").truthy = false) :
    validate_spec [("new", Val.dict nwd)] = specPart (sget nwd "spec") := by
  unfold validate_spec
  rw [show getKey [("new", Val.dict nwd)] "new" = Option.some (Val.dict nwd) from rfl]
  dsimp only
  cases h : specPart (sget nwd "spec") with
  | error e => rfl
  | ok rd => simp [configPart, hcf]

/-- With a raw spec holding only a spec section, validation is the spec
part alone. -/
theorem validate_spec_spec_only (s : List (String × Val)) :
    validate_spec [("new", Val.dict [("spec", Val.dict s)])] = specPart (Val.dict s) :=
  validate_spec_falsy_config [("spec", Val.dict s)] (by rfl)

/-- The spec part on a non-empty spec section that sets none of the
recognized keys returns the documented defaults. -/
theorem specPart_defaults (s : List (String × Val))
    (hne : s.isEmpty = false)
    (h1 : getKey s "resources" = Option.none)
    (h2 : getKey s "namespace" = Option.none)
    (h3 : getKey s "image" = Option.none)
    (h4 : getKey s "host" = Option.none)
    (h5 : getKey s "nodeSelector" = Option.none)
    (h6 : getKey s "clusterdomain" = Option.none)
    (h7 : getKey s "replicas" = Option.none)
    (h8 : getKey s "storageClass" = Option.none) :
    specPart (Val.dict s)
      = Except.ok
        [("namespace", Val.str "typesense"),
         ("image", Val.str "typesense/typesense"),
         ("resources", Val.none),
         ("host", Val.str "typesense.dwbn.local"),
         ("nodeSelector", Val.none),
         ("clusterdomain", Val.str "cluster.local"),
         ("replicas", Val.int 3)] := by
  unfold specPart
  simp [Val.truthy, hne, resourcesCheck, sget, pyGetD, h1, h2, h3, h4, h5, h6, h7, h8]

/-- The spec part in the presence of a non-empty storageClass block (and no
resources block): raise exactly when name or size is falsy, otherwise copy
both values into the resolved spec. -/
theorem specPart_storage_eq (s sc : List (String × Val))
    (hsc : getKey s "storageClass" = Option.some (Val.dict sc))
    (hscne : sc.isEmpty = false)
    (hres : getKey s "resources" = Option.none) :
    specPart (Val.dict s)
      = if !(sget sc "name").truthy || !(sget sc "size").truthy
        then Except.error "Missing storageClass name or size"
        else Except.ok
          [("namespace", pyGetD s "namespace" (Val.str "typesense")),
           ("image", pyGetD s "image" (Val.str "typesense/typesense")),
           ("resources", Val.none),
           ("host", pyGetD s "host" (Val.str "typesense.dwbn.local")),
           ("nodeSelector", sget s "nodeSelector"),
           ("clusterdomain", pyGetD s "clusterdomain" (Val.str "cluster.local")),
           ("replicas", pyGetD s "replicas" (Val.int 3)),
           ("storageClassName", sget sc "name"),
           ("storage", sget sc "size")] := by
  have hs_ne : s.isEmpty = false := getKey_isEmpty_false hsc
  have hsg : sget s "storageClass" = Val.dict sc := by simp [sget, pyGetD, hsc]
  have hrs : sget s "resources" = Val.none := by simp [sget, pyGetD, hres]
  simp [specPart, Val.truthy, hs_ne, hscne, resourcesCheck, hrs, hsg]

/-- Appending a fresh binding makes it the result of lookup. -/
theorem getKey_append_last {l : List (String × Val)} {k : String} {v : Val}
    (h : getKey l k = Option.none) : getKey (l ++ [(k, v)]) k = Option.some v := by
  unfold getKey at h ⊢
  rw [List.find?_append]
  cases hf : l.find? (fun p => p.fst = k) with
  | none => simp [List.find?]
  | some p => rw [hf] at h; simp at h

/-- The image overlay leaves storage fields and annotations alone. -/
theorem overlayImage_frame (spec : List (String × Val)) :
    PreservesStorageFields (overlayImage spec) := by
  intro c
  unfold overlayImage
  split <;> exact ⟨rfl, rfl, rfl⟩

/-- The resources overlay leaves storage fields and annotations alone. -/
theorem overlayResources_frame (spec : List (String × Val)) :
    PreservesStorageFields (overlayResources spec) := by
  intro c
  unfold overlayResources
  split <;> exact ⟨rfl, rfl, rfl⟩

/-- The node-selector overlay leaves storage fields and annotations alone. -/
theorem overlayNodeSelector_frame (spec : List (String × Val)) :
    PreservesStorageFields (overlayNodeSelector spec) := by
  intro c
  unfold overlayNodeSelector
  split <;> exact ⟨rfl, rfl, rfl⟩

/-- The replica overlay leaves storage fields and annotations alone. -/
theorem overlayReplicas_frame (spec : List (String × Val)) :
    PreservesStorageFields (overlayReplicas spec) := by
  intro c
  unfold overlayReplicas
  split <;> exact ⟨rfl, rfl, rfl⟩

/-- The password overlay, when it succeeds, leaves storage fields and
annotations alone. -/
theorem overlayPassword_frame (spec : List (String × Val)) (c c2 : StatefulSetConf)
    (h : overlayPassword spec c = Except.ok c2) :
    c2.volumeClaimTemplates = c.volumeClaimTemplates
    ∧ c2.volumes = c.volumes
    ∧ c2.annotations = c.annotations := by
  unfold overlayPassword setCommandIdx at h
  split at h
  · split at h
    · injection h with h2; subst h2; exact ⟨rfl, rfl, rfl⟩
    · exact absurd h (by simp)
  · injection h with h2; subst h2; exact ⟨rfl, rfl, rfl⟩

/-- The overlay stage of the statefulset renderer never touches the storage
fields, and it stamps the restart annotation with the current time exactly
when `update` holds, choosing patch over create accordingly. -/
theorem deploy_ss_overlay_frame (c0 : StatefulSetConf) (spec : List (String × Val))
    (update : Bool) (now : String) (c : StatefulSetConf) (meth : ApplyMethod)
    (h : deploy_ss_overlay c0 spec update now = Except.ok (c, meth)) :
    c.volumeClaimTemplates = c0.volumeClaimTemplates
    ∧ c.volumes = c0.volumes
    ∧ (update = true → meth = ApplyMethod.patch
        ∧ c.annotations = Option.some
            (Val.dict [("kubectl.kubernetes.io/restartedAt", Val.str now)]))
    ∧ (update = false → meth = ApplyMethod.create ∧ c.annotations = c0.annotations) := by
  unfold deploy_ss_overlay at h
  cases hns : getKey spec "namespace" with
  | none => rw [hns] at h; exact absurd h (by simp)
  | some nsv =>
    rw [hns] at h
    dsimp only at h
    cases hp : overlayPassword spec (overlayNodeSelector spec (overlayResources spec
        (overlayImage spec { c0 with metadata_namespace := nsv }))) with
    | error e => rw [hp] at h; exact absurd h (by simp)
    | ok c5 =>
      rw [hp] at h
      dsimp only at h
      have hf2 := overlayImage_frame spec { c0 with metadata_namespace := nsv }
      have hf3 := overlayResources_frame spec (overlayImage spec { c0 with metadata_namespace := nsv })
      have hf4 := overlayNodeSelector_frame spec (overlayResources spec
        (overlayImage spec { c0 with metadata_namespace := nsv }))
      have hf5 := overlayPassword_frame spec _ c5 hp
      have hf6 := overlayReplicas_frame spec c5
      have hvct : (overlayReplicas spec c5).volumeClaimTemplates = c0.volumeClaimTemplates := by
        rw [hf6.1, hf5.1, hf4.1, hf3.1, hf2.1]
      have hvol : (overlayReplicas spec c5).volumes = c0.volumes := by
        rw [hf6.2.1, hf5.2.1, hf4.2.1, hf3.2.1, hf2.2.1]
      have hann : (overlayReplicas spec c5).annotations = c0.annotations := by
        rw [hf6.2.2, hf5.2.2, hf4.2.2, hf3.2.2, hf2.2.2]
      cases update with
      | true =>
        rw [if_pos rfl] at h
        injection h with h2
        injection h2 with h3 h4
        subst h3; subst h4
        refine ⟨hvct, hvol, fun _ => ⟨rfl, rfl⟩, fun hfalse => ?_⟩
        simp at hfalse
      | false =>
        rw [if_neg Bool.false_ne_true] at h
        injection h with h2
        injection h2 with h3 h4
        subst h3; subst h4
        refine ⟨hvct, hvol, fun htrue => ?_, fun _ => ⟨rfl, hann⟩⟩
        simp at htrue

/-- The storage stage of the statefulset renderer never touches the
pod-template annotations. -/
theorem deploy_ss_storage_annotations (base : StatefulSetConf)
    (spec : List (String × Val)) (c0 : StatefulSetConf)
    (h : deploy_ss_storage base spec = Except.ok c0) :
    c0.annotations = base.annotations := by
  unfold deploy_ss_storage at h
  dsimp only at h
  repeat split at h
  all_goals try (injection h with h2; subst h2; rfl)
  all_goals injection h

/-- Without a truthy storage class the storage stage appends the scratch
volume. -/
theorem deploy_ss_storage_none (base : StatefulSetConf) (spec : List (String × Val))
    (hf : (sget spec "storageClassName").truthy = false) :
    deploy_ss_storage base spec
      = Except.ok { base with volumes := base.volumes ++ [emptyDirDataVolume] } := by
  simp [deploy_ss_storage, hf]

/-- With a truthy storage class the storage stage installs the claim
template built from the spec values. -/
theorem deploy_ss_storage_some (base : StatefulSetConf) (spec : List (String × Val))
    (st : Val) (ht : (sget spec "storageClassName").truthy = true)
    (hst : getKey spec "storage" = Option.some st) :
    deploy_ss_storage base spec
      = Except.ok { base with volumeClaimTemplates := Option.some (Val.list [volumeClaimTemplate (sget spec "storageClassName") st]) } := by
  simp [deploy_ss_storage, ht, hst]

/-- Whatever the spec part returns, it never contains a password binding. -/
theorem specPart_no_password (spec : Val) (rd : List (String × Val))
    (h : specPart spec = Except.ok rd) : getKey rd "password" = Option.none := by
  unfold specPart at h
  split at h
  · split at h
    · split at h
      · exact absurd h (by simp)
      · split at h
        · split at h
          · split at h
            · exact absurd h (by simp)
            · injection h with h2
              subst h2
              simp [getKey]
          · exact absurd h (by simp)
        · injection h with h2
          subst h2
          simp [getKey]
    · exact absurd h (by simp)
  · injection h with h2
    subst h2
    simp [getKey]

/-- A falsy config section leaves the resolved dict unchanged. -/
theorem configPart_falsy (config : Val) (rd : List (String × Val))
    (h : config.truthy = false) : configPart config rd = Except.ok rd := by
  simp [configPart, h]

/-- A truthy config dict that omits password appends the placeholder. -/
theorem configPart_placeholder (c : List (String × Val)) (rd : List (String × Val))
    (hne : c.isEmpty = false) (hnp : getKey c "password" = Option.none) :
    configPart (Val.dict c) rd
      = Except.ok (rd ++ [("password", Val.str "297beb01dd21c")]) := by
  simp [configPart, Val.truthy, hne, pyGetD, hnp]

/-! ## Claim theorems -/

/-- C2, behavior of the code at the failing input: a raw spec whose
`resources.requests` block provides `cpu` but omits `memory` is accepted by
`validate_spec` without any exception, because the source checks the keys
`requests`, `memory` and `cpu` on the top level of the spec section rather
than inside `resources`; the claimed rejection does not happen. -/
theorem C2_requests_missing_memory_accepted :
    validate_spec
      [("new", Val.dict [("spec", Val.dict
        [("resources", Val.dict [("requests", Val.dict [("cpu", Val.str "1")])])])])]
      = Except.ok
        [("namespace", Val.str "typesense"),
         ("image", Val.str "typesense/typesense"),
         ("resources", Val.dict [("requests", Val.dict [("cpu", Val.str "1")])]),
         ("host", Val.str "typesense.dwbn.local"),
         ("nodeSelector", Val.none),
         ("clusterdomain", Val.str "cluster.local"),
         ("replicas", Val.int 3)] := rfl

/-- C3 counterexample: for a raw spec with empty `spec` and `config`
sections, `validate_spec` succeeds with an empty resolved dict — its
namespace field is absent, not `"typesense"` — because the truthiness guard
`if spec:` skips all default propagation for an empty section. -/
theorem C3_empty_sections_counterexample :
    (validate_spec [("new", Val.dict [("spec", Val.dict []), ("config", Val.dict [])])]).map
        (fun rd => getKey rd "namespace")
      = Except.ok Option.none := rfl

/-- C3 (amended): for a raw spec whose spec section is non-empty but sets
none of the recognized keys, and whose config section is empty,
`validate_spec` resolves namespace `"typesense"`, image
`"typesense/typesense"`, host `"typesense.dwbn.local"`, clusterdomain
`"cluster.local"` and replicas `3`; an empty spec section instead yields an
empty resolved dict. -/
theorem C3_default_propagation (s : List (String × Val))
    (hne : s.isEmpty = false)
    (h1 : getKey s "resources" = Option.none)
    (h2 : getKey s "namespace" = Option.none)
    (h3 : getKey s "image" = Option.none)
    (h4 : getKey s "host" = Option.none)
    (h5 : getKey s "nodeSelector" = Option.none)
    (h6 : getKey s "clusterdomain" = Option.none)
    (h7 : getKey s "replicas" = Option.none)
    (h8 : getKey s "storageClass" = Option.none) :
    validate_spec [("new", Val.dict [("spec", Val.dict s), ("config", Val.dict [])])]
      = Except.ok
        [("namespace", Val.str "typesense"),
         ("image", Val.str "typesense/typesense"),
         ("resources", Val.none),
         ("host", Val.str "typesense.dwbn.local"),
         ("nodeSelector", Val.none),
         ("clusterdomain", Val.str "cluster.local"),
         ("replicas", Val.int 3)] := by
  rw [validate_spec_falsy_config _ (by rfl)]
  have hs : sget [("spec", Val.dict s), ("config", Val.dict [])] "spec" = Val.dict s := rfl
  rw [hs]
  exact specPart_defaults s hne h1 h2 h3 h4 h5 h6 h7 h8

/-- Witness for C3 on a spec section holding only an unrecognized key. -/
theorem C3_default_propagation_witness :
    validate_spec [("new", Val.dict
        [("spec", Val.dict [("foo", Val.str "bar")]), ("config", Val.dict [])])]
      = Except.ok
        [("namespace", Val.str "typesense"),
         ("image", Val.str "typesense/typesense"),
         ("resources", Val.none),
         ("host", Val.str "typesense.dwbn.local"),
         ("nodeSelector", Val.none),
         ("clusterdomain", Val.str "cluster.local"),
         ("replicas", Val.int 3)] :=
  C3_default_propagation [("foo", Val.str "bar")] rfl rfl rfl rfl rfl rfl rfl rfl rfl

/-- C5: for a resolved spec without a storage class (and a base template
carrying no claim template, as the shipped one does), the rendered stateful
workload has no persistent-volume claim template and gains the ephemeral
scratch volume capped at 500Mi; with a storage class it instead gains a
claim template carrying the given class name and size, and the volumes are
untouched. -/
theorem C5_storage_attachment (base : StatefulSetConf) (spec : List (String × Val))
    (update : Bool) (now : String) (c : StatefulSetConf) (meth : ApplyMethod)
    (hok : deploy_typesense_statefulset_render base spec update now = Except.ok (c, meth)) :
    ((sget spec "storageClassName").truthy = false →
        base.volumeClaimTemplates = Option.none →
        c.volumeClaimTemplates = Option.none
        ∧ c.volumes = base.volumes ++
            [Val.dict [("name", Val.str "data"),
                       ("emptyDir", Val.dict [("sizeLimit", Val.str "500Mi")])]])
    ∧ (∀ st : Val, (sget spec "storageClassName").truthy = true →
        getKey spec "storage" = Option.some st →
        c.volumeClaimTemplates
          = Option.some (Val.list [volumeClaimTemplate (sget spec "storageClassName") st])
        ∧ c.volumes = base.volumes) := by
  unfold deploy_typesense_statefulset_render at hok
  constructor
  · intro hf hb
    rw [deploy_ss_storage_none base spec hf] at hok
    dsimp only at hok
    have hfr := deploy_ss_overlay_frame _ spec update now c meth hok
    constructor
    · rw [hfr.1]; exact hb
    · rw [hfr.2.1]; simp [emptyDirDataVolume]
  · intro st ht hst
    rw [deploy_ss_storage_some base spec st ht hst] at hok
    dsimp only at hok
    have hfr := deploy_ss_overlay_frame _ spec update now c meth hok
    exact ⟨hfr.1, hfr.2.1⟩

/-- Witness for C5 on concrete specs with and without a storage class. -/
theorem C5_storage_attachment_witness :
    ∃ p q : StatefulSetConf × ApplyMethod,
      deploy_typesense_statefulset_render exSSBase exSpecNoStorage false "t0" = Except.ok p
      ∧ p.1.volumeClaimTemplates = Option.none
      ∧ p.1.volumes = exSSBase.volumes ++
          [Val.dict [("name", Val.str "data"),
                     ("emptyDir", Val.dict [("sizeLimit", Val.str "500Mi")])]]
      ∧ deploy_typesense_statefulset_render exSSBase exSpecWithStorage false "t0" = Except.ok q
      ∧ q.1.volumeClaimTemplates
          = Option.some (Val.list [volumeClaimTemplate (Val.str "fast") (Val.str "10Gi")])
      ∧ q.1.volumes = exSSBase.volumes := by
  refine ⟨_, _, rfl, ?_, ?_, rfl, ?_, ?_⟩
  · exact ((C5_storage_attachment exSSBase exSpecNoStorage false "t0" _ _ rfl).1 rfl rfl).1
  · exact ((C5_storage_attachment exSSBase exSpecNoStorage false "t0" _ _ rfl).1 rfl rfl).2
  · exact ((C5_storage_attachment exSSBase exSpecWithStorage false "t0" _ _ rfl).2
      (Val.str "10Gi") rfl rfl).1
  · exact ((C5_storage_attachment exSSBase exSpecWithStorage false "t0" _ _ rfl).2
      (Val.str "10Gi") rfl rfl).2

/-- C7: rendering the stateful workload with `update = true` stamps the
pod-template restart annotation with the current timestamp and applies by
patch; with `update = false` the annotations stay exactly those of the base
template and the resource is applied by create. -/
theorem C7_restart_stamp (base : StatefulSetConf) (spec : List (String × Val))
    (now : String) :
    (∀ c meth, deploy_typesense_statefulset_render base spec true now = Except.ok (c, meth) →
        meth = ApplyMethod.patch
        ∧ c.annotations = Option.some
            (Val.dict [("kubectl.kubernetes.io/restartedAt", Val.str now)]))
    ∧ (∀ c meth, deploy_typesense_statefulset_render base spec false now = Except.ok (c, meth) →
        meth = ApplyMethod.create ∧ c.annotations = base.annotations) := by
  constructor
  · intro c meth hok
    unfold deploy_typesense_statefulset_render at hok
    cases hss : deploy_ss_storage base spec with
    | error e => rw [hss] at hok; exact absurd hok (by simp)
    | ok c0 =>
      rw [hss] at hok
      dsimp only at hok
      exact (deploy_ss_overlay_frame c0 spec true now c meth hok).2.2.1 rfl
  · intro c meth hok
    unfold deploy_typesense_statefulset_render at hok
    cases hss : deploy_ss_storage base spec with
    | error e => rw [hss] at hok; exact absurd hok (by simp)
    | ok c0 =>
      rw [hss] at hok
      dsimp only at hok
      have h1 := (deploy_ss_overlay_frame c0 spec false now c meth hok).2.2.2 rfl
      exact ⟨h1.1, h1.2.trans (deploy_ss_storage_annotations base spec c0 hss)⟩

/-- Witness for C7 at a concrete base, spec and timestamp. -/
theorem C7_restart_stamp_witness :
    ∃ p q : StatefulSetConf × ApplyMethod,
      deploy_typesense_statefulset_render exSSBase exSpecNoStorage true "2024-05-01T00:00:00"
        = Except.ok p
      ∧ p.2 = ApplyMethod.patch
      ∧ p.1.annotations = Option.some
          (Val.dict [("kubectl.kubernetes.io/restartedAt", Val.str "2024-05-01T00:00:00")])
      ∧ deploy_typesense_statefulset_render exSSBase exSpecNoStorage false "2024-05-01T00:00:00"
        = Except.ok q
      ∧ q.2 = ApplyMethod.create
      ∧ q.1.annotations = exSSBase.annotations := by
  refine ⟨_, _, rfl, ?_, ?_, rfl, ?_, ?_⟩
  · exact ((C7_restart_stamp exSSBase exSpecNoStorage "2024-05-01T00:00:00").1 _ _ rfl).1
  · exact ((C7_restart_stamp exSSBase exSpecNoStorage "2024-05-01T00:00:00").1 _ _ rfl).2
  · exact ((C7_restart_stamp exSSBase exSpecNoStorage "2024-05-01T00:00:00").2 _ _ rfl).1
  · exact ((C7_restart_stamp exSSBase exSpecNoStorage "2024-05-01T00:00:00").2 _ _ rfl).2

/-- C9: when the config section of the raw spec is absent or otherwise falsy,
the resolved spec contains no password binding at all; the placeholder
credential `"297beb01dd21c"` appears exactly when a non-empty config section
is given that omits `password`. -/
theorem C9_password_default_scope (nwd rd : List (String × Val))
    (hok : validate_spec [("new", Val.dict nwd)] = Except.ok rd) :
    ((sget nwd "config").truthy = false → getKey rd "password" = Option.none)
    ∧ (∀ c : List (String × Val), sget nwd "config" = Val.dict c →
        c.isEmpty = false → getKey c "password" = Option.none →
        getKey rd "password" = Option.some (Val.str "297beb01dd21c")) := by
  unfold validate_spec at hok
  rw [show getKey [("new", Val.dict nwd)] "new" = Option.some (Val.dict nwd) from rfl] at hok
  dsimp only at hok
  constructor
  · intro hcf
    cases hsp : specPart (sget nwd "spec") with
    | error e => rw [hsp] at hok; exact absurd hok (by simp)
    | ok rd1 =>
      rw [hsp] at hok
      dsimp only at hok
      rw [configPart_falsy _ _ hcf] at hok
      injection hok with h2
      subst h2
      exact specPart_no_password _ _ hsp
  · intro c hc hcne hcnp
    cases hsp : specPart (sget nwd "spec") with
    | error e => rw [hsp] at hok; exact absurd hok (by simp)
    | ok rd1 =>
      rw [hsp] at hok
      dsimp only at hok
      rw [hc, configPart_placeholder c rd1 hcne hcnp] at hok
      injection hok with h2
      subst h2
      exact getKey_append_last (specPart_no_password _ _ hsp)

/-- Witness for C9: with no config section the resolved spec has no password
binding; with a config section lacking password it carries the placeholder. -/
theorem C9_password_default_scope_witness :
    getKey
      [("namespace", Val.str "typesense"), ("image", Val.str "typesense/typesense"),
       ("resources", Val.none), ("host", Val.str "typesense.dwbn.local"),
       ("nodeSelector", Val.none), ("clusterdomain", Val.str "cluster.local"),
       ("replicas", Val.int 3)] "password" = Option.none
    ∧ getKey
      [("namespace", Val.str "typesense"), ("image", Val.str "typesense/typesense"),
       ("resources", Val.none), ("host", Val.str "typesense.dwbn.local"),
       ("nodeSelector", Val.none), ("clusterdomain", Val.str "cluster.local"),
       ("replicas", Val.int 3), ("password", Val.str "297beb01dd21c")] "password"
        = Option.some (Val.str "297beb01dd21c") :=
  ⟨(C9_password_default_scope [("spec", Val.dict [("foo", Val.str "bar")])] _ rfl).1 rfl,
   (C9_password_default_scope
      [("spec", Val.dict [("foo", Val.str "bar")]),
       ("config", Val.dict [("apiKey", Val.str "k")])] _ rfl).2
      [("apiKey", Val.str "k")] rfl rfl rfl⟩

/-- C4 counterexample: a raw spec containing a storage class block that is
empty — hence omitting both name and size — is not rejected: the truthiness
guard treats the empty block like an absent one and `validate_spec` returns
the defaulted resolved spec with no error. -/
theorem C4_empty_storage_block_counterexample :
    validate_spec [("new", Val.dict [("spec", Val.dict [("storageClass", Val.dict [])])])]
      = Except.ok
        [("namespace", Val.str "typesense"),
         ("image", Val.str "typesense/typesense"),
         ("resources", Val.none),
         ("host", Val.str "typesense.dwbn.local"),
         ("nodeSelector", Val.none),
         ("clusterdomain", Val.str "cluster.local"),
         ("replicas", Val.int 3)] := rfl

/-- C4 (amended): for every raw spec whose spec section holds a non-empty
storage class block (and no resources block), `validate_spec` raises exactly
when the block has a missing or falsy `name` or `size`; when both are truthy
it succeeds and the resolved `storageClassName` and `storage` are exactly the
values of the input block. -/
theorem C4_storage_class_validation (s sc : List (String × Val))
    (hsc : getKey s "storageClass" = Option.some (Val.dict sc))
    (hscne : sc.isEmpty = false)
    (hres : getKey s "resources" = Option.none) :
    (((sget sc "name").truthy = false ∨ (sget sc "size").truthy = false) →
       validate_spec [("new", Val.dict [("spec", Val.dict s)])]
         = Except.error "Missing storageClass name or size")
    ∧ ((sget sc "name").truthy = true → (sget sc "size").truthy = true →
       validate_spec [("new", Val.dict [("spec", Val.dict s)])]
         = Except.ok
           [("namespace", pyGetD s "namespace" (Val.str "typesense")),
            ("image", pyGetD s "image" (Val.str "typesense/typesense")),
            ("resources", Val.none),
            ("host", pyGetD s "host" (Val.str "typesense.dwbn.local")),
            ("nodeSelector", sget s "nodeSelector"),
            ("clusterdomain", pyGetD s "clusterdomain" (Val.str "cluster.local")),
            ("replicas", pyGetD s "replicas" (Val.int 3)),
            ("storageClassName", sget sc "name"),
            ("storage", sget sc "size")]) := by
  have hsp := specPart_storage_eq s sc hsc hscne hres
  rw [validate_spec_spec_only, hsp]
  constructor
  · intro hbad
    rcases hbad with hb | hb <;> simp [hb]
  · intro hn hs
    simp [hn, hs]

/-- Witness for C4: a complete block is accepted with its values copied; a
block missing `name` is rejected. -/
theorem C4_storage_class_validation_witness :
    validate_spec [("new", Val.dict [("spec", Val.dict
        [("storageClass", Val.dict [("name", Val.str "fast"), ("size", Val.str "10Gi")])])])]
      = Except.ok
        [("namespace", Val.str "typesense"),
         ("image", Val.str "typesense/typesense"),
         ("resources", Val.none),
         ("host", Val.str "typesense.dwbn.local"),
         ("nodeSelector", Val.none),
         ("clusterdomain", Val.str "cluster.local"),
         ("replicas", Val.int 3),
         ("storageClassName", Val.str "fast"),
         ("storage", Val.str "10Gi")]
    ∧ validate_spec [("new", Val.dict [("spec", Val.dict
        [("storageClass", Val.dict [("size", Val.str "10Gi")])])])]
      = Except.error "Missing storageClass name or size" :=
  ⟨(C4_storage_class_validation
      [("storageClass", Val.dict [("name", Val.str "fast"), ("size", Val.str "10Gi")])]
      [("name", Val.str "fast"), ("size", Val.str "10Gi")] rfl rfl rfl).2 rfl rfl,
   (C4_storage_class_validation
      [("storageClass", Val.dict [("size", Val.str "10Gi")])]
      [("size", Val.str "10Gi")] rfl rfl rfl).1 (Or.inl rfl)⟩

/-- C1: for every validated spec with `replicas = n > 0`, namespace `ns` and
cluster domain `cd`, the discovery config written by `deploy_configmap` holds
exactly `n` comma-separated peer entries, entry `i` being
`"typesense-<i>.ts.<ns>.svc.<cd>:8107:8108"`; for `n = 2`, namespace
`"typesense"` and domain `"cluster.local"` the joined list is the literal
two-replica string. -/
theorem C1_discovery_nodes (n : Int) (hn : 0 < n) (ns cd : String)
    (base : ConfigMapConf) :
    ∃ entries : List String,
      (deploy_configmap_render base (Option.some n) ns cd).data_nodes
          = Val.str (String.intercalate "," entries)
      ∧ entries.length = n.toNat
      ∧ (∀ i (h : i < entries.length), entries.get ⟨i, h⟩
            = "typesense-" ++ toString i ++ ".ts." ++ ns ++ ".svc." ++ cd ++ ":8107:8108")
      ∧ (n = 2 → ns = "typesense" → cd = "cluster.local" →
          String.intercalate "," entries
            = "typesense-0.ts.typesense.svc.cluster.local:8107:8108,typesense-1.ts.typesense.svc.cluster.local:8107:8108") := by
  refine ⟨buildNodes n.toNat ns cd, ?_, buildNodes_length n.toNat ns cd, ?_, ?_⟩
  · have hne : n ≠ 0 := by omega
    simp [deploy_configmap_render, hne]
  · intro i h
    simpa [nodeAddress] using buildNodes_get n.toNat ns cd i h
  · rintro rfl rfl rfl
    rfl

/-- Witness for C1 at `n = 2`, the default namespace and cluster domain. -/
theorem C1_discovery_nodes_witness :
    (0 : Int) < 2 ∧
    ∃ entries : List String,
      (deploy_configmap_render exConfigMapBase (Option.some 2) "typesense" "cluster.local").data_nodes
          = Val.str (String.intercalate "," entries)
      ∧ entries.length = (2 : Int).toNat
      ∧ (∀ i (h : i < entries.length), entries.get ⟨i, h⟩
            = "typesense-" ++ toString i ++ ".ts." ++ "typesense" ++ ".svc." ++ "cluster.local" ++ ":8107:8108")
      ∧ ((2 : Int) = 2 → "typesense" = "typesense" → "cluster.local" = "cluster.local" →
          String.intercalate "," entries
            = "typesense-0.ts.typesense.svc.cluster.local:8107:8108,typesense-1.ts.typesense.svc.cluster.local:8107:8108") :=
  ⟨by decide, C1_discovery_nodes 2 (by decide) "typesense" "cluster.local" exConfigMapBase⟩

/-- C10: when `replicas` is absent (`None`) or zero, `deploy_configmap`
leaves the `nodes` entry of the config map exactly as in the base template
(and the rest of the template untouched), while still overwriting the
namespace. -/
theorem C10_configmap_frame (base : ConfigMapConf) (ns cd : String) :
    (deploy_configmap_render base Option.none ns cd).data_nodes = base.data_nodes
    ∧ (deploy_configmap_render base (Option.some 0) ns cd).data_nodes = base.data_nodes
    ∧ (deploy_configmap_render base Option.none ns cd).rest = base.rest
    ∧ (deploy_configmap_render base (Option.some 0) ns cd).rest = base.rest
    ∧ (deploy_configmap_render base Option.none ns cd).metadata_namespace = Val.str ns
    ∧ (deploy_configmap_render base (Option.some 0) ns cd).metadata_namespace = Val.str ns := by
  refine ⟨?_, ?_, ?_, ?_, ?_, ?_⟩ <;> simp [deploy_configmap_render]

/-- C6 counterexample: at a concrete client failure, the statefulset deploy
function re-raises the message
`Kubernets Api Exception - Statefulset: boom ` — which is not of the claimed
form `<kind> apply failed: <underlying cause>`: any message of that form
would contain the substring `apply failed`, and this one does not. -/
theorem C6_message_form_counterexample :
    deploy_typesense_statefulset_run exSSBase exSpecNoStorage false "t0"
        (ClientOutcome.apiErr "boom")
      = Except.error "Kubernets Api Exception - Statefulset: boom "
    ∧ hasSub "apply failed".data "Kubernets Api Exception - Statefulset: boom ".data
      = false := ⟨rfl, rfl⟩

/-- C6 (amended): every client failure in every deploy function is re-raised
as an error carrying the resource kind and the underlying cause, in the
format the source actually uses — `Kubernets Api Exception - <Kind>: <body> `
for an ApiException (the namespace variant doubly wrapped and without the
trailing blank) and `Exception <kind>: <cause>` for any other failure — and
no failure is swallowed into a success. -/
theorem C6_failures_wrapped (b m ns host now cd : String)
    (nsb : NamespaceConf) (cmb : ConfigMapConf) (ssb : StatefulSetConf)
    (svc hls : ServiceConf) (ingb : IngressConf) (spec : List (String × Val))
    (reps : Option Int) (upd : Bool) (r : StatefulSetConf × ApplyMethod)
    (c2 : ClientOutcome) :
    create_modify_namespace_run nsb ns (ClientOutcome.apiErr b)
        = Except.error ("Exception namespace: "
            ++ ("Kubernets Api Exception - Namespace: " ++ b))
    ∧ create_modify_namespace_run nsb ns (ClientOutcome.exc m)
        = Except.error ("Exception namespace: " ++ m)
    ∧ deploy_configmap_run cmb reps ns upd cd (ClientOutcome.apiErr b)
        = Except.error ("Kubernets Api Exception - Configmap: " ++ b ++ " ")
    ∧ deploy_configmap_run cmb reps ns upd cd (ClientOutcome.exc m)
        = Except.error ("Exception configmap: " ++ m)
    ∧ (deploy_typesense_statefulset_render ssb spec upd now = Except.ok r →
        deploy_typesense_statefulset_run ssb spec upd now (ClientOutcome.apiErr b)
          = Except.error ("Kubernets Api Exception - Statefulset: " ++ b ++ " ")
        ∧ deploy_typesense_statefulset_run ssb spec upd now (ClientOutcome.exc m)
          = Except.error ("Exception statefulset: " ++ m))
    ∧ (∀ e, deploy_typesense_statefulset_run ssb spec upd now (ClientOutcome.apiErr b)
          ≠ Except.ok e)
    ∧ deploy_service_run svc hls ns (ClientOutcome.apiErr b) c2
        = Except.error ("Kubernets Api Exception - Service: " ++ b ++ " ")
    ∧ deploy_service_run svc hls ns (ClientOutcome.exc m) c2
        = Except.error ("Exception service: " ++ m)
    ∧ deploy_service_run svc hls ns ClientOutcome.ok (ClientOutcome.apiErr b)
        = Except.error ("Kubernets Api Exception - Service: " ++ b ++ " ")
    ∧ deploy_service_run svc hls ns ClientOutcome.ok (ClientOutcome.exc m)
        = Except.error ("Exception service: " ++ m)
    ∧ deploy_ingress_run ingb ns host upd (ClientOutcome.apiErr b)
        = Except.error ("Kubernets Api Exception - Ingress: " ++ b ++ " ")
    ∧ deploy_ingress_run ingb ns host upd (ClientOutcome.exc m)
        = Except.error ("Exception Ingress: " ++ m) := by
  refine ⟨rfl, rfl, rfl, rfl, ?_, ?_, rfl, rfl, rfl, rfl, rfl, rfl⟩
  · intro h
    constructor <;> simp [deploy_typesense_statefulset_run, h]
  · intro e
    unfold deploy_typesense_statefulset_run
    cases hr : deploy_typesense_statefulset_render ssb spec upd now <;> simp

/-- Witness for C6 at a concrete rendering and concrete failure payloads. -/
theorem C6_failures_wrapped_witness :
    deploy_typesense_statefulset_run exSSBase exSpecNoStorage false "t0"
        (ClientOutcome.apiErr "boom")
      = Except.error ("Kubernets Api Exception - Statefulset: " ++ "boom" ++ " ")
    ∧ deploy_typesense_statefulset_run exSSBase exSpecNoStorage false "t0"
        (ClientOutcome.exc "oops")
      = Except.error ("Exception statefulset: " ++ "oops") :=
  (C6_failures_wrapped "boom" "oops" "typesense" "h" "t0" "cluster.local"
    exNamespaceBase exConfigMapBase exSSBase exServiceBase exServiceBase exIngressBase
    exSpecNoStorage Option.none false _ ClientOutcome.ok).2.2.2.2.1 rfl

/-- C8: the function `create_modify_namespace` overwrites the template metadata name
with the argument exactly when the argument is not `"default"`; for
`"default"` the whole template is returned unchanged. -/
theorem C8_namespace_overlay (base : NamespaceConf) (ns : String) :
    (ns ≠ "default" →
      (create_modify_namespace_render base ns).metadata_name = ns
      ∧ (create_modify_namespace_render base ns).metadata_labels = base.metadata_labels
      ∧ (create_modify_namespace_render base ns).rest = base.rest)
    ∧ (ns = "default" → create_modify_namespace_render base ns = base) := by
  constructor
  · intro h; simp [create_modify_namespace_render, h]
  · intro h; simp [create_modify_namespace_render, h]

/-- Witness for C8 at a non-default and at the default namespace. -/
theorem C8_namespace_overlay_witness :
    (create_modify_namespace_render exNamespaceBase "custom").metadata_name = "custom"
    ∧ create_modify_namespace_render exNamespaceBase "default" = exNamespaceBase :=
  ⟨((C8_namespace_overlay exNamespaceBase "custom").1 (by decide)).1,
   (C8_namespace_overlay exNamespaceBase "default").2 rfl⟩
